import Mathlib

/-!
# Verification of the gimar-ia Provisioning & Batch Ingestion Engine

Shallow embedding of the Google Drive repository layer
(`src/backend/src/infrastructure/database/google/drive.repository.js`)
and the Google controller batch-upload endpoints
(`src/infrastructure/web/controllers/google.controller.js`), with the
missing use-case layer (`upload_pdf_drive.usecase.js`,
`upload_excel_drive.usecase.js`, absent from the source tree) modelled
from the specification where noted.

Strings are modelled as `List Char` where character-level regex
replacement is involved; opaque remote ids are modelled as `Nat`.
-/

namespace Gimar

/-! ## NamingPolicy: `generateFolderName` (sanitizeName)

Source (drive.repository.js, lines 176-182):
the pipeline is `replace(\.[^/.]+$ , empty)` to strip a trailing
extension, then `replace([^a-zA-Z0-9\s\-_] global, empty)` to drop
special characters, then `replace(\s+ global, underscore)`, then
`trim()`.
-/

/-- The character class of the JavaScript regex whitespace escape
(ECMAScript WhiteSpace plus LineTerminator), which is also the set
removed by `String.prototype.trim`. -/
def jsWhitespace (c : Char) : Bool :=
  let n := c.toNat
  n = 0x20 || n = 0x09 || n = 0x0a || n = 0x0d || n = 0x0b || n = 0x0c ||
  n = 0xa0 || n = 0x1680 || (0x2000 ≤ n && n ≤ 0x200a) ||
  n = 0x2028 || n = 0x2029 || n = 0x202f || n = 0x205f || n = 0x3000 ||
  n = 0xfeff

/-- ASCII alphanumeric, the `a-zA-Z0-9` ranges of the regex
(codepoints 97-122, 65-90, 48-57). -/
def asciiAlnum (c : Char) : Bool :=
  let n := c.toNat
  (97 ≤ n && n ≤ 122) || (65 ≤ n && n ≤ 90) || (48 ≤ n && n ≤ 57)

/-- The character class kept by the second `replace` of
`generateFolderName`: ASCII alphanumerics, regex whitespace, hyphen
(codepoint 45), underscore (codepoint 95). -/
def keepChar (c : Char) : Bool :=
  asciiAlnum c || jsWhitespace c || c.toNat = 45 || c.toNat = 95

/-- First `replace` of `generateFolderName`: remove a final dot
(codepoint 46) followed by a nonempty run of characters none of which
is a slash (codepoint 47) or a dot, anchored at the end of the
string. -/
def stripExt (cs : List Char) : List Char :=
  let r := cs.reverse
  let run := r.takeWhile (fun c => c.toNat != 46 && c.toNat != 47)
  match r.drop run.length with
  | '.' :: rest => if run.isEmpty then cs else rest.reverse
  | _ => cs

/-- Third `replace` of `generateFolderName`, with `prevWs` recording
whether the previous character was whitespace: each maximal run of
whitespace characters emits a single underscore at its first
character. -/
def collapseWsAux : Bool → List Char → List Char
  | _, [] => []
  | prevWs, c :: cs =>
    if jsWhitespace c then
      if prevWs then collapseWsAux true cs
      else '_' :: collapseWsAux true cs
    else c :: collapseWsAux false cs

/-- Third `replace` of `generateFolderName`: each maximal run of
whitespace characters becomes a single underscore. -/
def collapseWs (l : List Char) : List Char := collapseWsAux false l

/-- `String.prototype.trim`: drop whitespace characters from both ends. -/
def jsTrim (cs : List Char) : List Char :=
  ((cs.dropWhile jsWhitespace).reverse.dropWhile jsWhitespace).reverse

/-- `generateFolderName` of drive.repository.js on character lists:
strip extension, then drop characters outside the kept class, then
replace whitespace runs with underscore, then trim. -/
def generateFolderName (cs : List Char) : List Char :=
  jsTrim (collapseWs ((stripExt cs).filter keepChar))

/-- `generateFolderName` on Lean strings. -/
def generateFolderNameStr (s : String) : String :=
  ⟨generateFolderName s.toList⟩

/-! ## The remote store (Google Drive), modelled as explicit state

Folder and file ids are opaque strings in the source; they are modelled
as `Nat`, assigned from a fresh-id counter by the store. A `Folder`
record carries the fields the repository queries on (`name`,
`parents`, `trashed`; the folder mimeType is implied by the type).
`anyoneReaders` records the file ids that received a
role-reader/type-anyone permission via `permissions.create`. -/

structure Folder where
  id : Nat
  name : String
  parentId : Nat
  trashed : Bool
  deriving Repr, DecidableEq

structure StoredFile where
  id : Nat
  name : String
  parentId : Nat
  mimeType : String
  deriving Repr, DecidableEq

structure DriveState where
  folders : List Folder
  files : List StoredFile
  anyoneReaders : List Nat
  nextId : Nat
  deriving Repr, DecidableEq

/-- The empty remote store. -/
def DriveState.empty : DriveState := ⟨[], [], [], 100⟩

/-- File metadata returned by Drive on create/get with the fields
requested by `uploadFile` (id, name, mimeType, webContentLink,
webViewLink). The links are opaque store-generated URLs. -/
structure FileMeta where
  id : Nat
  name : String
  mimeType : String
  webContentLink : String
  webViewLink : String
  deriving Repr, DecidableEq

/-- drive.repository.js `findFolderByName(folderName, parentId)`:
lists non-trashed folders with the exact name under the parent
(`pageSize: 1`, so the first match) and returns its id, or `null`. -/
def findFolderByName (folderName : String) (parentId : Nat)
    (s : DriveState) : Option Nat :=
  ((s.folders.filter
      (fun f => f.name = folderName ∧ f.parentId = parentId ∧
        f.trashed = false)).head?).map (·.id)

/-- drive.repository.js `createFolder(name, parentId)`: creates a folder
resource under the parent and returns the new id. -/
def createFolder (name : String) (parentId : Nat) (s : DriveState) :
    Nat × DriveState :=
  (s.nextId,
   { s with
      folders := s.folders ++ [⟨s.nextId, name, parentId, false⟩],
      nextId := s.nextId + 1 })

/-- drive.repository.js `uploadFile(name, parentId, mimeType, buffer)`:
creates the file, then unconditionally grants a role-reader/type-anyone
permission on it, then re-fetches and returns the metadata. -/
def uploadFile (name : String) (parentId : Nat) (mimeType : String)
    (s : DriveState) : FileMeta × DriveState :=
  let fileId := s.nextId
  let s1 : DriveState :=
    { s with
        files := s.files ++ [⟨fileId, name, parentId, mimeType⟩],
        nextId := s.nextId + 1 }
  let s2 : DriveState :=
    { s1 with anyoneReaders := s1.anyoneReaders ++ [fileId] }
  (⟨fileId, name, mimeType,
    "content-" ++ toString fileId, "view-" ++ toString fileId⟩, s2)

/-- drive.repository.js `setPublicReadPermissions(fileId)`: grants a
role-reader/type-anyone permission on an existing file. -/
def setPublicReadPermissions (fileId : Nat) (s : DriveState) :
    DriveState :=
  { s with anyoneReaders := s.anyoneReaders ++ [fileId] }

/-- Modelled from the spec: `FolderResolver.resolve(name, parentId)`.
The composition lives in `upload_excel_drive.usecase.js`
(`createFolderIfNotExists` / `getOrCreateMesAnio`), which is not under
the source tree; per the spec it queries the store for a non-trashed
folder with the exact name under the parent (via `findFolderByName`),
returns its id if found, and otherwise creates one (via `createFolder`)
and returns the new id. -/
def resolve (name : String) (parentId : Nat) (s : DriveState) :
    Nat × DriveState :=
  match findFolderByName name parentId s with
  | some fid => (fid, s)
  | none => createFolder name parentId s

/-! ## FolderTreeBuilder: `createRecursiveFolders`

Source (drive.repository.js, lines 70-80): create the node's own folder
with `createFolder`, then loop over `folder.children` in order,
recursing with the id just created as parent; return the node's id. -/

structure FolderSpec where
  name : String
  children : List FolderSpec
  deriving Repr

mutual

/-- drive.repository.js `createRecursiveFolders(folder, parentId)`:
depth-first pre-order creation of the spec tree, returning the id of
the folder created for the top node. -/
def createRecursiveFolders :
    FolderSpec → Nat → DriveState → Nat × DriveState
  | ⟨name, children⟩, parentId, s =>
    let (newFolderId, s1) := createFolder name parentId s
    (newFolderId, createChildFolders children newFolderId s1)

/-- The `for (const child of folder.children)` loop of
`createRecursiveFolders`. -/
def createChildFolders :
    List FolderSpec → Nat → DriveState → DriveState
  | [], _, s => s
  | child :: rest, parentId, s =>
    let (_, s1) := createRecursiveFolders child parentId s
    createChildFolders rest parentId s1

end

mutual

/-- Number of nodes of a folder spec tree. -/
def FolderSpec.size : FolderSpec → Nat
  | ⟨_, children⟩ => 1 + sizeListFS children

/-- Total number of nodes of a list of folder spec trees. -/
def sizeListFS : List FolderSpec → Nat
  | [] => 0
  | c :: rest => c.size + sizeListFS rest

end

/-! ## NamingPolicy: `generateDayFolderName`

Source (drive.repository.js, lines 158-167): format the current instant
with a date formatter pinned to `timeZone: Europe/Madrid` with 2-digit
day, 2-digit month, numeric year (es-ES order day/month/year), then
replace the slashes with hyphens.

The formatter itself is the runtime's internationalization library, an
external collaborator. Modelled from the spec: it converts the absolute
epoch instant to the civil date of the fixed Europe/Madrid timezone —
proleptic Gregorian calendar, UTC offset +1 hour, +2 during EU summer
time (last Sunday of March 01:00 UTC up to last Sunday of October 01:00
UTC) — independently of the host clock's own timezone offset. Instants
are nonnegative epoch milliseconds. -/

/-- Civil date (year, month, day). -/
structure CivilDate where
  year : Nat
  month : Nat
  day : Nat
  deriving Repr, DecidableEq

/-- Days since 1970-01-01 to Gregorian civil date (valid for
nonnegative day numbers). -/
def civilFromDays (z : Nat) : CivilDate :=
  let z' := z + 719468
  let era := z' / 146097
  let doe := z' % 146097
  let yoe := (doe - doe / 1460 + doe / 36524 - doe / 146096) / 365
  let y := yoe + era * 400
  let doy := doe - (365 * yoe + yoe / 4 - yoe / 100)
  let mp := (5 * doy + 2) / 153
  let d := doy - (153 * mp + 2) / 5 + 1
  let m := if mp < 10 then mp + 3 else mp - 9
  ⟨if m ≤ 2 then y + 1 else y, m, d⟩

/-- Gregorian civil date to days since 1970-01-01 (valid for years
from 1970 on). -/
def daysFromCivil (y m d : Nat) : Nat :=
  let y' := if m ≤ 2 then y - 1 else y
  let era := y' / 400
  let yoe := y' % 400
  let doy := (153 * (if m > 2 then m - 3 else m + 9) + 2) / 5 + d - 1
  let doe := yoe * 365 + yoe / 4 - yoe / 100 + doy
  era * 146097 + doe - 719468

/-- Day number (since 1970-01-01) of the last Sunday of March of a
year; 1970-01-01 was a Thursday, so day `z` is a Sunday when
`(z + 4) % 7 = 0`. -/
def lastSundayOfMarch (y : Nat) : Nat :=
  let d31 := daysFromCivil y 3 31
  d31 - (d31 + 4) % 7

/-- Day number of the last Sunday of October of a year. -/
def lastSundayOfOctober (y : Nat) : Nat :=
  let d31 := daysFromCivil y 10 31
  d31 - (d31 + 4) % 7

/-- UTC offset of Europe/Madrid in seconds at a given epoch second:
+2 hours between the last Sunday of March 01:00 UTC and the last
Sunday of October 01:00 UTC, +1 hour otherwise. -/
def madridOffsetSeconds (epochSec : Nat) : Nat :=
  let y := (civilFromDays (epochSec / 86400)).year
  let dstStart := lastSundayOfMarch y * 86400 + 3600
  let dstEnd := lastSundayOfOctober y * 86400 + 3600
  if dstStart ≤ epochSec ∧ epochSec < dstEnd then 7200 else 3600

/-- The civil date of the Europe/Madrid timezone at a given epoch
instant (milliseconds). -/
def madridCivilDate (epochMillis : Nat) : CivilDate :=
  let sec := epochMillis / 1000
  civilFromDays ((sec + madridOffsetSeconds sec) / 86400)

/-- Two-digit zero-padded decimal rendering. -/
def pad2 (n : Nat) : String :=
  if n < 10 then "0" ++ toString n else toString n

/-- drive.repository.js `generateDayFolderName()`: the current instant
formatted as DD-MM-YYYY in the fixed Europe/Madrid timezone (the es-ES
2-digit day/month slash format with slashes replaced by hyphens). The
host clock's own local offset `hostOffsetMinutes` plays no part: the
formatter receives the absolute epoch instant and a pinned timezone. -/
def generateDayFolderName (epochMillis : Nat)
    (_hostOffsetMinutes : Int) : String :=
  let d := madridCivilDate epochMillis
  pad2 d.day ++ "-" ++ pad2 d.month ++ "-" ++ toString d.year

/-! ## The Google controller batch endpoints

Source: google.controller.js (`src/unnamed/part_005`). A multipart
request file carries `originalname` and `mimetype` (its buffer is
opaque to all the control logic and omitted). The use-case layer
invoked by the controller (`upload_pdf_drive.usecase.js`,
`upload_excel_drive.usecase.js`) is not under the source tree, so each
of its operations is modelled from the spec by its settled outcome: a
per-call result-or-error supplied by an `Env` oracle, which also plays
the role of `Promise.allSettled` — each item's outcome is a function of
that item alone, so no item's failure affects a sibling. -/

structure ReqFile where
  originalname : String
  mimetype : String
  deriving Repr, DecidableEq

/-- A settled rejection: `reason.message` and `code` may be absent
(the controller then falls back to defaults). -/
structure ErrInfo where
  message : Option String
  code : Option Nat
  deriving Repr, DecidableEq

/-- Modelled from the spec: the value resolved by
`uploadPdfUseCase.execute` — RemoteFile metadata (id, name, links)
plus the target folder data the controller copies into its success
entries (`targetFolderId`, `folderName`). -/
structure PdfResult where
  id : Nat
  name : String
  webViewLink : String
  webContentLink : String
  targetFolderId : Nat
  folderName : String
  deriving Repr, DecidableEq

/-- The folder-id configuration map (drive-ids.json) entries used by
the embedded endpoints; a missing entry makes `_getFolderId` throw. -/
structure DriveIds where
  intrastatCompras : Option Nat
  intrastatVentas : Option Nat
  inventario : Option Nat
  nominasAsesorias : Option Nat
  nominasNominas : Option Nat
  deriving Repr

/-- Modelled from the spec: the settled outcomes of the use-case layer
operations the controller awaits. `execPdf` is
`uploadPdfUseCase.execute` (file, target folder id); `folderDia` is
`uploadPdfUseCase.executeFolderDia` (day-folder resolution under a
root); `uploadExcelToFolder` is
`uploadExcelUseCase.uploadFileToFolder`; `getOrCreateMesAnio` and
`createFolderIfNotExists` are the idempotent folder resolutions of
`uploadExcelUseCase` (parent, month/name, year). -/
structure Env where
  execPdf : ReqFile → Nat → Except ErrInfo PdfResult
  folderDia : Nat → Except ErrInfo Nat
  uploadExcelToFolder : ReqFile → Nat → Except ErrInfo FileMeta
  getOrCreateMesAnio : Nat → String → String → Except ErrInfo Nat
  createFolderIfNotExists : String → Nat → Except ErrInfo Nat
  driveIds : DriveIds

/-- One entry of the `exitosos` list built by the controller. -/
structure Exitoso where
  id : Nat
  name : String
  webViewLink : String
  webContentLink : String
  folderId : Nat
  folderName : String
  deriving Repr, DecidableEq

/-- One entry of the `fallidos` list built by the controller. -/
structure Fallido where
  archivo : String
  error : String
  deriving Repr, DecidableEq

/-- The `resumen` object of the batch response body. -/
structure Resumen where
  total : Nat
  exitosos : Nat
  fallidos : Nat
  deriving Repr, DecidableEq

/-- An HTTP reply of the batch PDF endpoints: either an error object
(validation failure or caught exception) or the batch body; `fallidos`
is present in the body only when nonempty (`undefined` otherwise). -/
inductive BatchReply
  | errorReply (status : Nat) (msg : String)
  | batchReply (status : Nat) (exitosos : List Exitoso)
      (fallidos : Option (List Fallido)) (resumen : Resumen)
  deriving Repr, DecidableEq

/-- The `resultados.forEach` classification loop of the batch
endpoints: fulfilled outcomes are pushed onto `exitosos`, rejected ones
onto `fallidos` with the matching input file's original name and the
rejection message (defaulted to "Error desconocido"), both in input
order. -/
def clasificar :
    List ReqFile → List (Except ErrInfo PdfResult) →
      List Exitoso × List Fallido
  | _, [] => ([], [])
  | [], _ :: _ => ([], [])
  | f :: fs, r :: rs =>
    let (ex, fa) := clasificar fs rs
    match r with
    | .ok p =>
      (⟨p.id, p.name, p.webViewLink, p.webContentLink,
        p.targetFolderId, p.folderName⟩ :: ex, fa)
    | .error e =>
      (ex, ⟨f.originalname, e.message.getD "Error desconocido"⟩ :: fa)

/-- The accepted PDF mime types of the batch PDF endpoints. -/
def pdfMimeTypes : List String := ["application/pdf"]

/-- The `201 / 500 / 207` selection of the batch endpoints:
`fallidos.length === 0 ? 201 : exitosos.length === 0 ? 500 : 207`. -/
def batchStatusCode (exitosos : List Exitoso) (fallidos : List Fallido) :
    Nat :=
  if fallidos.length = 0 then 201
  else if exitosos.length = 0 then 500 else 207

/-- google.controller.js `uploadIntrastatPDF`: validate (files present,
`marca` present and one of COMPRA/VENTA, all PDFs), resolve the root
folder id from configuration, resolve the day folder, fan out one
upload per file, classify settled outcomes, and reply with the
three-way status. The second component counts the remote use-case
invocations made (day-folder resolution plus one upload per file);
every validation rejection happens before any of them. -/
def uploadIntrastatPDF (env : Env) (files : List ReqFile)
    (marca : Option String) : BatchReply × Nat :=
  if files.length = 0 then
    (.errorReply 400 "Falta archivo(s) (form-data \"files\")", 0)
  else
    match marca with
    | none => (.errorReply 400 "Falta el campo \"marca\" en el body", 0)
    | some m =>
      if m = "COMPRA" ∨ m = "VENTA" then
        let archivosInvalidos :=
          files.filter (fun f => ! pdfMimeTypes.contains f.mimetype)
        if archivosInvalidos.length > 0 then
          (.errorReply 400
            ("Todos los archivos deben ser PDF. Archivos inválidos: " ++
              String.intercalate ", "
                (archivosInvalidos.map (·.originalname))), 0)
        else
          match (if m = "COMPRA" then env.driveIds.intrastatCompras
                 else env.driveIds.intrastatVentas) with
          | none =>
            (.errorReply 500 "Falta ID de carpeta en drive-ids.json", 0)
          | some parentFolderId =>
            match env.folderDia parentFolderId with
            | .error e =>
              (.errorReply (e.code.getD 500)
                (e.message.getD "Error interno del servidor."), 1)
            | .ok idCarpeta =>
              let resultados := files.map (fun f => env.execPdf f idCarpeta)
              let (exitosos, fallidos) := clasificar files resultados
              (.batchReply (batchStatusCode exitosos fallidos) exitosos
                (if fallidos.length > 0 then some fallidos else none)
                ⟨files.length, exitosos.length, fallidos.length⟩,
               1 + files.length)
      else
        (.errorReply 400
          "Marca no válida. Debe ser una de: COMPRA, VENTA", 0)

/-- google.controller.js `uploadInventarioPDF`: as `uploadIntrastatPDF`
but with no `marca` discriminator and the inventario root folder. -/
def uploadInventarioPDF (env : Env) (files : List ReqFile) :
    BatchReply × Nat :=
  if files.length = 0 then
    (.errorReply 400 "Falta archivo(s) (form-data \"files\")", 0)
  else
    let archivosInvalidos :=
      files.filter (fun f => ! pdfMimeTypes.contains f.mimetype)
    if archivosInvalidos.length > 0 then
      (.errorReply 400
        ("Todos los archivos deben ser PDF. Archivos inválidos: " ++
          String.intercalate ", "
            (archivosInvalidos.map (·.originalname))), 0)
    else
      match env.driveIds.inventario with
      | none => (.errorReply 500 "Falta ID de carpeta en drive-ids.json", 0)
      | some parentFolderId =>
        match env.folderDia parentFolderId with
        | .error e =>
          (.errorReply (e.code.getD 500)
            (e.message.getD "Error interno del servidor."), 1)
        | .ok idCarpeta =>
          let resultados := files.map (fun f => env.execPdf f idCarpeta)
          let (exitosos, fallidos) := clasificar files resultados
          (.batchReply (batchStatusCode exitosos fallidos) exitosos
            (if fallidos.length > 0 then some fallidos else none)
            ⟨files.length, exitosos.length, fallidos.length⟩,
           1 + files.length)

/-- `toLowerCase` of the mimetype check, on the ASCII range the mime
strings live in: uppercase letters (codepoints 65-90) shift down by
32, all other characters unchanged. -/
def lowerChar (c : Char) : Char :=
  if 65 ≤ c.toNat ∧ c.toNat ≤ 90 then Char.ofNat (c.toNat + 32) else c

/-- `mimetype.toLowerCase()` of `uploadNominasExcels`. -/
def jsToLower (s : String) : String :=
  ⟨s.toList.map lowerChar⟩

/-- The accepted Excel mime types of `uploadNominasExcels` (matched
against the lowercased request mimetype). -/
def excelMimeTypesNominas : List String :=
  ["application/vnd.ms-excel",
   "application/vnd.openxmlformats-officedocument.spreadsheetml.sheet",
   "application/vnd.ms-excel.sheet.macroenabled.12"]

/-- A reply of `uploadNominasExcels`: the success body carries only the
resumen file id and the two lists of successful detail-file ids — it
has no failure count and no failure list. -/
inductive NominasReply
  | errorReply (status : Nat) (msg : String)
  | okReply (status : Nat) (idExcelResumen : Nat)
      (idsRetenciones : List Nat) (idsNominas : List Nat)
  deriving Repr, DecidableEq

/-- The per-item task of the nóminas detail uploads: `try` the upload
and return its id, `catch` any error and return `null`. -/
def nominasDetailTask (env : Env) (folderId : Nat) (archivo : ReqFile) :
    Option Nat :=
  match env.uploadExcelToFolder archivo folderId with
  | .ok r => some r.id
  | .error _ => none

/-- google.controller.js `uploadNominasExcels`: validate the three file
groups, `anio`/`mes` and the Excel mime types; get-or-create the
year/month folders under the two roots and the three subfolders; upload
every detail file with its failure caught and mapped to `null`; upload
the resumen file (not caught — its failure rejects the whole
`Promise.all` and surfaces through the catch); filter the `null`s out
and reply 200 with the successful ids only. -/
def uploadNominasExcels (env : Env) (archivoResumen : Option ReqFile)
    (archivosDetalle1 archivosDetalle2 : List ReqFile)
    (anio mes : Option String) : NominasReply :=
  match archivoResumen with
  | none => .errorReply 400 "Falta el archivo de nóminas (archivoResumen)"
  | some resumen =>
    if archivosDetalle1.length = 0 then
      .errorReply 400 "Faltan archivos de resúmenes (archivosDetalle1)"
    else if archivosDetalle2.length = 0 then
      .errorReply 400 "Faltan archivos de retenciones (archivosDetalle2)"
    else
      match anio, mes with
      | some a, some m =>
        let todosLosArchivos :=
          resumen :: (archivosDetalle1 ++ archivosDetalle2)
        let archivosInvalidos := todosLosArchivos.filter
          (fun f => ! excelMimeTypesNominas.contains (jsToLower f.mimetype))
        if archivosInvalidos.length > 0 then
          .errorReply 400
            ("Todos los archivos deben ser Excel. Archivos inválidos: " ++
              String.intercalate ", "
                (archivosInvalidos.map (·.originalname)))
        else
          match env.driveIds.nominasAsesorias,
                env.driveIds.nominasNominas with
          | some parentAsesorias, some parentNominas =>
            match env.getOrCreateMesAnio parentAsesorias m a with
            | .error e =>
              .errorReply (e.code.getD 500)
                (e.message.getD "Error interno del servidor.")
            | .ok folderAnoMes =>
              match env.getOrCreateMesAnio parentNominas m a with
              | .error e =>
                .errorReply (e.code.getD 500)
                  (e.message.getD "Error interno del servidor.")
              | .ok folderAnoMesNomina =>
                match env.createFolderIfNotExists "RETENCIONES" folderAnoMes,
                      env.createFolderIfNotExists "RESUMEN" folderAnoMes,
                      env.createFolderIfNotExists "NOMINAS"
                        folderAnoMesNomina with
                | .error e, _, _ =>
                  .errorReply (e.code.getD 500)
                    (e.message.getD "Error interno del servidor.")
                | _, .error e, _ =>
                  .errorReply (e.code.getD 500)
                    (e.message.getD "Error interno del servidor.")
                | _, _, .error e =>
                  .errorReply (e.code.getD 500)
                    (e.message.getD "Error interno del servidor.")
                | .ok folderRetenciones, .ok folderResumenes,
                  .ok folderNominas =>
                  let retencionesIds := archivosDetalle2.map
                    (nominasDetailTask env folderRetenciones)
                  let resumenesIds := archivosDetalle1.map
                    (nominasDetailTask env folderResumenes)
                  match env.uploadExcelToFolder resumen folderNominas with
                  | .error e =>
                    .errorReply (e.code.getD 500)
                      (e.message.getD "Error interno del servidor.")
                  | .ok excelResumen =>
                    .okReply 200 excelResumen.id
                      (retencionesIds.filterMap id)
                      (resumenesIds.filterMap id)
          | _, _ =>
            .errorReply 500 "Falta ID de carpeta en drive-ids.json"
      | _, _ =>
        .errorReply 400 "Faltan los campos \"anio\" y/o \"mes\" en el body"

/-- Characters that can appear in a sanitized name: ASCII
alphanumerics, hyphen, underscore. -/
def goodChar (c : Char) : Bool :=
  asciiAlnum c || c.toNat = 45 || c.toNat = 95

/-- The folder tree spec of the testable property: node A with
children B and C, C itself with child D. -/
def specABCD : FolderSpec :=
  ⟨"A", [⟨"B", []⟩, ⟨"C", [⟨"D", []⟩]⟩]⟩

/-- The success entry built from a fulfilled upload outcome. -/
def exitosoOf (p : PdfResult) : Exitoso :=
  ⟨p.id, p.name, p.webViewLink, p.webContentLink, p.targetFolderId,
   p.folderName⟩

/-- The success entry an item contributes, if its outcome is fulfilled. -/
def exitosoEntry (g : ReqFile → Except ErrInfo PdfResult) (f : ReqFile) :
    Option Exitoso :=
  match g f with
  | .ok p => some (exitosoOf p)
  | .error _ => none

/-- The failure entry an item contributes, if its outcome is rejected. -/
def fallidoEntry (g : ReqFile → Except ErrInfo PdfResult) (f : ReqFile) :
    Option Fallido :=
  match g f with
  | .error e => some ⟨f.originalname, e.message.getD "Error desconocido"⟩
  | .ok _ => none

/-- The per-item upload outcome of a batch whose items all target the
resolved day folder. -/
def execAt (env : Env) (idCarpeta : Nat) :
    ReqFile → Except ErrInfo PdfResult :=
  fun f => env.execPdf f idCarpeta

/-- Oracle environment for the concrete scenarios: every operation
succeeds except uploads of "b.pdf" and "d2b.xlsx". -/
def envW : Env where
  execPdf f fid :=
    if f.originalname = "b.pdf" then .error ⟨some "boom", none⟩
    else .ok ⟨800 + fid, f.originalname, "v", "c", fid, "10-10-2025"⟩
  folderDia pid := .ok (pid + 50)
  uploadExcelToFolder f _ :=
    if f.originalname = "d2b.xlsx" then .error ⟨some "boom2", none⟩
    else .ok ⟨900 + f.originalname.length, f.originalname, "m", "c", "v"⟩
  getOrCreateMesAnio p _ _ := .ok (p + 10)
  createFolderIfNotExists n p :=
    if n = "RETENCIONES" then .ok 61
    else if n = "RESUMEN" then .ok 62 else .ok (p + 63)
  driveIds := ⟨some 1, some 2, some 3, some 4, some 5⟩

/-! ## Lemmas about `generateFolderName` -/

lemma goodChar_not_ws {c : Char} (h : goodChar c = true) :
    jsWhitespace c = false := by
  simp only [goodChar, asciiAlnum, Bool.or_eq_true, Bool.and_eq_true,
    decide_eq_true_eq] at h
  simp only [jsWhitespace, Bool.or_eq_false_iff, Bool.and_eq_false_iff,
    decide_eq_false_iff_not]
  omega

lemma goodChar_keep {c : Char} (h : goodChar c = true) :
    keepChar c = true := by
  simp only [goodChar, Bool.or_eq_true] at h
  simp only [keepChar, Bool.or_eq_true]
  tauto

lemma goodChar_not_dot_slash {c : Char} (h : goodChar c = true) :
    (c.toNat != 46 && c.toNat != 47) = true := by
  simp only [goodChar, asciiAlnum, Bool.or_eq_true, Bool.and_eq_true,
    decide_eq_true_eq] at h
  simp only [Bool.and_eq_true, bne_iff_ne, ne_eq]
  omega

lemma collapseWsAux_chars : ∀ (l : List Char) (b : Bool),
    ∀ c ∈ collapseWsAux b l, c = '_' ∨ (c ∈ l ∧ jsWhitespace c = false) := by
  intro l
  induction l with
  | nil => intro b c hc; simp [collapseWsAux] at hc
  | cons d l ih =>
    intro b c hc
    by_cases hd : jsWhitespace d
    · rcases b with _ | _
      · rw [collapseWsAux, if_pos hd, if_neg (by simp)] at hc
        rcases List.mem_cons.mp hc with h | h
        · exact Or.inl h
        · rcases ih true c h with h2 | ⟨hm, hw⟩
          · exact Or.inl h2
          · exact Or.inr ⟨List.mem_cons_of_mem _ hm, hw⟩
      · rw [collapseWsAux, if_pos hd, if_pos rfl] at hc
        rcases ih true c hc with h2 | ⟨hm, hw⟩
        · exact Or.inl h2
        · exact Or.inr ⟨List.mem_cons_of_mem _ hm, hw⟩
    · rw [collapseWsAux, if_neg hd] at hc
      rcases List.mem_cons.mp hc with h | h
      · subst h
        exact Or.inr ⟨List.mem_cons_self _ _, by simpa using hd⟩
      · rcases ih false c h with h2 | ⟨hm, hw⟩
        · exact Or.inl h2
        · exact Or.inr ⟨List.mem_cons_of_mem _ hm, hw⟩

lemma collapseWsAux_of_no_ws : ∀ (l : List Char),
    (∀ c ∈ l, jsWhitespace c = false) → ∀ b, collapseWsAux b l = l := by
  intro l
  induction l with
  | nil => intro _ b; simp [collapseWsAux]
  | cons d l ih =>
    intro h b
    rw [collapseWsAux, if_neg (by simp [h d (List.mem_cons_self d l)])]
    exact congrArg _ (ih (fun c hc => h c (List.mem_cons_of_mem _ hc)) false)

lemma stripExt_of_good {cs : List Char}
    (h : ∀ c ∈ cs, goodChar c = true) : stripExt cs = cs := by
  have hall : ∀ c ∈ cs.reverse, (c.toNat != 46 && c.toNat != 47) = true :=
    fun c hc => goodChar_not_dot_slash (h c (List.mem_reverse.mp hc))
  have htake : cs.reverse.takeWhile
      (fun c => c.toNat != 46 && c.toNat != 47) = cs.reverse := by
    rw [List.takeWhile_eq_self_iff]
    exact hall
  simp only [stripExt, htake, List.drop_length]

lemma dropWhile_of_no_ws {cs : List Char}
    (h : ∀ c ∈ cs, jsWhitespace c = false) :
    cs.dropWhile jsWhitespace = cs := by
  cases cs with
  | nil => rfl
  | cons d l =>
    rw [List.dropWhile_cons, if_neg]
    simp [h d (List.mem_cons_self d l)]

lemma jsTrim_of_no_ws {cs : List Char}
    (h : ∀ c ∈ cs, jsWhitespace c = false) : jsTrim cs = cs := by
  unfold jsTrim
  rw [dropWhile_of_no_ws h,
      dropWhile_of_no_ws (fun c hc => h c (List.mem_reverse.mp hc)),
      List.reverse_reverse]

lemma generateFolderName_chars (cs : List Char) :
    ∀ c ∈ generateFolderName cs, goodChar c = true := by
  intro c hc
  have h1 : c ∈ collapseWs ((stripExt cs).filter keepChar) := by
    unfold generateFolderName jsTrim at hc
    have h2 := (List.dropWhile_sublist _).mem (List.mem_reverse.mp hc)
    exact (List.dropWhile_sublist _).mem (List.mem_reverse.mp h2)
  rcases collapseWsAux_chars _ false c h1 with h | ⟨hm, hw⟩
  · subst h; decide
  · have hk : keepChar c = true := (List.mem_filter.mp hm).2
    simp only [keepChar, Bool.or_eq_true] at hk
    simp only [goodChar, Bool.or_eq_true]
    rcases hk with ((h | h) | h) | h
    · exact Or.inl (Or.inl h)
    · rw [hw] at h; exact absurd h (by simp)
    · exact Or.inl (Or.inr h)
    · exact Or.inr h

lemma generateFolderName_idem_list (cs : List Char) :
    generateFolderName (generateFolderName cs) = generateFolderName cs := by
  have hy := generateFolderName_chars cs
  have hnws : ∀ c ∈ generateFolderName cs, jsWhitespace c = false :=
    fun c hc => goodChar_not_ws (hy c hc)
  conv_lhs => rw [generateFolderName]
  rw [stripExt_of_good hy,
      List.filter_eq_self.mpr (fun c hc => goodChar_keep (hy c hc)),
      collapseWs, collapseWsAux_of_no_ws _ hnws false,
      jsTrim_of_no_ws hnws]

/-! ## Claim theorems for NamingPolicy -/

/-- C5, counterexample: `sanitizeName("  a/b:c  ")` is not `"a_b_c"` on
the code — the slash and the colon are deleted (not turned into
separators) and the edge whitespace becomes underscores before `trim`
runs, so the code returns `"_abc_"`. -/
theorem generateFolderName_example2_fails :
    generateFolderNameStr "  a/b:c  " ≠ "a_b_c" := by decide

/-- C5 (amended): `sanitizeName` strips a trailing file extension,
removes every character outside letters, digits, whitespace, hyphen and
underscore, replaces whitespace runs with a single underscore, and then
trims (a no-op, since no whitespace remains); in particular
`sanitizeName("Informe Q1 (2025).xlsx") = "Informe_Q1_2025"` and
`sanitizeName("  a/b:c  ") = "_abc_"`, and no character outside ASCII
letters, digits, hyphen (codepoint 45) and underscore (codepoint 95)
survives in any output. -/
theorem generateFolderName_sanitization :
    generateFolderNameStr "Informe Q1 (2025).xlsx" = "Informe_Q1_2025" ∧
    generateFolderNameStr "  a/b:c  " = "_abc_" ∧
    ∀ (s : String), ∀ c ∈ (generateFolderNameStr s).toList,
      asciiAlnum c = true ∨ c.toNat = 45 ∨ c.toNat = 95 := by
  refine ⟨by decide, by decide, fun s c hc => ?_⟩
  have h := generateFolderName_chars s.toList c hc
  simp only [goodChar, Bool.or_eq_true, decide_eq_true_eq] at h
  tauto

/-- Witness for C5: the character-set clause instantiated on a concrete
input and output character. -/
theorem generateFolderName_sanitization_witness :
    ('x' ∈ (generateFolderNameStr "x y").toList) ∧
    (asciiAlnum 'x' = true ∨ Char.toNat 'x' = 45 ∨ Char.toNat 'x' = 95) :=
  ⟨by decide, generateFolderName_sanitization.2.2 "x y" 'x' (by decide)⟩

/-- C6: `sanitizeName` is total — it is a function defined on every
string — and idempotent: applying it twice gives the same result as
applying it once. -/
theorem generateFolderName_total_idem (s : String) :
    generateFolderNameStr (generateFolderNameStr s) =
      generateFolderNameStr s :=
  congrArg String.mk (generateFolderName_idem_list s.toList)

/-! ## FolderTreeBuilder lemmas -/

mutual

lemma createRecursiveFolders_folders (f : FolderSpec) (p : Nat)
    (s : DriveState) :
    ((createRecursiveFolders f p s).2.folders).length =
      s.folders.length + f.size := by
  match f with
  | ⟨name, children⟩ =>
    rw [createRecursiveFolders]
    rw [createChildFolders_folders children]
    simp [createFolder, FolderSpec.size]
    omega

lemma createChildFolders_folders (cs : List FolderSpec) (p : Nat)
    (s : DriveState) :
    ((createChildFolders cs p s).folders).length =
      s.folders.length + sizeListFS cs := by
  match cs with
  | [] => rw [createChildFolders]; simp [sizeListFS]
  | c :: rest =>
    rw [createChildFolders]
    rw [createChildFolders_folders rest]
    rw [createRecursiveFolders_folders c]
    simp [sizeListFS]
    omega

end

/-- C7: `createRecursiveFolders` creates exactly one folder per spec
node (unconditionally — the count grows by the spec size from any
starting state, including states already holding folders of the same
name, so no find-or-create happens), returns the id of the top node,
and walks depth-first in pre-order: on the spec A with children
[B, C[D]] from the empty store it creates exactly 4 folders in the
order A, B, C, D, with B and C parented to A's new id and D parented
to C's new id. -/
theorem createRecursiveFolders_tree :
    (∀ (f : FolderSpec) (p : Nat) (s : DriveState),
      ((createRecursiveFolders f p s).2.folders).length =
        s.folders.length + f.size) ∧
    specABCD.size = 4 ∧
    (createRecursiveFolders specABCD 0 DriveState.empty).1 = 100 ∧
    (createRecursiveFolders specABCD 0 DriveState.empty).2.folders =
      [⟨100, "A", 0, false⟩, ⟨101, "B", 100, false⟩,
       ⟨102, "C", 100, false⟩, ⟨103, "D", 102, false⟩] :=
  ⟨createRecursiveFolders_folders, by decide, by decide, by decide⟩

/-! ## FolderResolver lemmas -/

lemma findFolderByName_after_create {name : String} {parentId : Nat}
    {s : DriveState}
    (h : findFolderByName name parentId s = none) :
    findFolderByName name parentId (createFolder name parentId s).2 =
      some s.nextId := by
  have hfil : s.folders.filter
      (fun f => decide (f.name = name ∧ f.parentId = parentId ∧
        f.trashed = false)) = [] := by
    unfold findFolderByName at h
    rcases hh : s.folders.filter (fun f => decide (f.name = name ∧
        f.parentId = parentId ∧ f.trashed = false)) with _ | ⟨a, l⟩
    · exact hh
    · rw [hh] at h
      simp at h
  unfold findFolderByName createFolder
  simp only [List.filter_append, hfil, List.nil_append]
  rw [List.filter_cons]
  simp

lemma resolve_of_none {name : String} {parentId : Nat} {s : DriveState}
    (h : findFolderByName name parentId s = none) :
    resolve name parentId s = createFolder name parentId s := by
  simp [resolve, h]

lemma resolve_second_call (name : String) (parentId : Nat)
    (s : DriveState) :
    resolve name parentId (resolve name parentId s).2 =
      resolve name parentId s := by
  rcases hh : findFolderByName name parentId s with _ | fid
  · rw [resolve_of_none hh]
    have h2 := findFolderByName_after_create hh
    simp only [createFolder] at h2 ⊢
    unfold resolve
    rw [h2]
  · simp [resolve, hh]

/-- C4: `resolve(name, parentId)` first queries the store for a
non-trashed folder with exactly that name under the parent; if found it
returns that folder's id with no mutation, otherwise it creates exactly
one folder with that name and parent and returns the new id; and a
second immediate, non-racing call is a no-op returning the same pair,
so across both calls at most one folder is created. -/
theorem resolve_props (name : String) (parentId : Nat) (s : DriveState) :
    (∀ fid, findFolderByName name parentId s = some fid →
      resolve name parentId s = (fid, s)) ∧
    (findFolderByName name parentId s = none →
      (resolve name parentId s).1 = s.nextId ∧
      (resolve name parentId s).2.folders =
        s.folders ++ [⟨s.nextId, name, parentId, false⟩]) ∧
    resolve name parentId (resolve name parentId s).2 =
      resolve name parentId s ∧
    ((resolve name parentId (resolve name parentId s).2).2.folders).length
      ≤ s.folders.length + 1 := by
  refine ⟨?_, ?_, resolve_second_call name parentId s, ?_⟩
  · intro fid h; simp [resolve, h]
  · intro h; simp [resolve, h, createFolder]
  · rw [resolve_second_call]
    rcases hh : findFolderByName name parentId s with _ | fid
    · rw [resolve_of_none hh]
      simp [createFolder]
    · simp [resolve, hh]

/-- Witness for C4: resolving "2025" under parent 1 in the empty store
creates the folder with the fresh id 100, and the second call returns
the same pair without creating anything. -/
theorem resolve_props_witness :
    findFolderByName "2025" 1 DriveState.empty = none ∧
    (resolve "2025" 1 DriveState.empty).1 = 100 ∧
    (resolve "2025" 1 DriveState.empty).2.folders =
      [⟨100, "2025", 1, false⟩] ∧
    resolve "2025" 1 (resolve "2025" 1 DriveState.empty).2 =
      resolve "2025" 1 DriveState.empty :=
  ⟨by decide,
   ((resolve_props "2025" 1 DriveState.empty).2.1 (by decide)).1,
   by
     have h := ((resolve_props "2025" 1 DriveState.empty).2.1
       (by decide)).2
     simpa using h,
   (resolve_props "2025" 1 DriveState.empty).2.2.1⟩

/-! ## NamingPolicy: day-folder determinism -/

/-- C8: `generateDayFolderName` formats the instant as DD-MM-YYYY in
the fixed Europe/Madrid civil timezone; two calls within the same
Madrid civil day return identical strings, whatever the host clock's
own local offsets are. -/
theorem generateDayFolderName_same_civil_day (t1 t2 : Nat)
    (hz1 hz2 : Int) (h : madridCivilDate t1 = madridCivilDate t2) :
    generateDayFolderName t1 hz1 = generateDayFolderName t2 hz2 := by
  unfold generateDayFolderName
  rw [h]

/-- Witness for C8: 2025-06-15 21:00 UTC and 2025-06-15 08:00 UTC fall
on the same Madrid civil day (15-06-2025, summer offset +2), and the
formatted names agree even with opposite host offsets. -/
theorem generateDayFolderName_same_civil_day_witness :
    madridCivilDate 1750021200000 = madridCivilDate 1749974400000 ∧
    generateDayFolderName 1750021200000 (-300) =
      generateDayFolderName 1749974400000 540 :=
  ⟨by decide,
   generateDayFolderName_same_civil_day 1750021200000 1749974400000
     (-300) 540 (by decide)⟩

/-! ## PermissionManager: who gets public-read -/

/-- C9, counterexample: a plain document upload to an internal folder
(a PDF uploaded via `uploadFile` to folder 7) does receive the
role-reader/type-anyone permission — `uploadFile` grants it
unconditionally to every file it creates, so public-read is not
reserved to externally linkable files. -/
theorem uploadFile_public_read_on_plain_upload :
    (uploadFile "informe.pdf" 7 "application/pdf" DriveState.empty).1.id
      ∈ (uploadFile "informe.pdf" 7 "application/pdf"
          DriveState.empty).2.anyoneReaders := by decide

/-! ## UploadOrchestrator lemmas: batch classification -/

lemma clasificar_map (g : ReqFile → Except ErrInfo PdfResult) :
    ∀ fs, clasificar fs (fs.map g) =
      (fs.filterMap (exitosoEntry g), fs.filterMap (fallidoEntry g)) := by
  intro fs
  induction fs with
  | nil => rfl
  | cons f fs ih =>
    simp only [List.map_cons, clasificar, ih, List.filterMap_cons]
    cases hg : g f <;>
      simp [exitosoEntry, fallidoEntry, exitosoOf, hg]

lemma entries_length (g : ReqFile → Except ErrInfo PdfResult) :
    ∀ (fs : List ReqFile), (fs.filterMap (exitosoEntry g)).length +
      (fs.filterMap (fallidoEntry g)).length = fs.length := by
  intro fs
  induction fs with
  | nil => rfl
  | cons f fs ih =>
    simp only [List.filterMap_cons]
    cases hg : g f <;>
      simp [exitosoEntry, fallidoEntry, hg] <;> omega

lemma uploadIntrastatPDF_run (env : Env) (files : List ReqFile)
    (m : String) (pid idCarpeta : Nat)
    (hne : files ≠ [])
    (hm : m = "COMPRA" ∨ m = "VENTA")
    (hmime : ∀ f ∈ files, f.mimetype = "application/pdf")
    (hpid : (if m = "COMPRA" then env.driveIds.intrastatCompras
             else env.driveIds.intrastatVentas) = some pid)
    (hdia : env.folderDia pid = .ok idCarpeta) :
    uploadIntrastatPDF env files (some m) =
      (.batchReply
        (batchStatusCode (files.filterMap (exitosoEntry (execAt env idCarpeta)))
          (files.filterMap (fallidoEntry (execAt env idCarpeta))))
        (files.filterMap (exitosoEntry (execAt env idCarpeta)))
        (if (files.filterMap (fallidoEntry (execAt env idCarpeta))).length > 0
         then some (files.filterMap (fallidoEntry (execAt env idCarpeta)))
         else none)
        ⟨files.length,
         (files.filterMap (exitosoEntry (execAt env idCarpeta))).length,
         (files.filterMap (fallidoEntry (execAt env idCarpeta))).length⟩,
       1 + files.length) := by
  have hlen : ¬ files.length = 0 := by
    simpa [List.length_eq_zero] using hne
  have hfil : files.filter
      (fun f => ! pdfMimeTypes.contains f.mimetype) = [] := by
    rw [List.filter_eq_nil_iff]
    intro f hf
    simp [pdfMimeTypes, hmime f hf]
  have hcl := clasificar_map (fun f => env.execPdf f idCarpeta) files
  simp only [uploadIntrastatPDF, hlen, hm, hfil, hpid, hdia, hcl, execAt,
    List.length_nil, gt_iff_lt, Nat.lt_irrefl, if_false, if_true,
    iff_true, eq_self_iff_true, not_false_iff]
  rfl

lemma uploadInventarioPDF_run (env : Env) (files : List ReqFile)
    (pid idCarpeta : Nat)
    (hne : files ≠ [])
    (hmime : ∀ f ∈ files, f.mimetype = "application/pdf")
    (hpid : env.driveIds.inventario = some pid)
    (hdia : env.folderDia pid = .ok idCarpeta) :
    uploadInventarioPDF env files =
      (.batchReply
        (batchStatusCode (files.filterMap (exitosoEntry (execAt env idCarpeta)))
          (files.filterMap (fallidoEntry (execAt env idCarpeta))))
        (files.filterMap (exitosoEntry (execAt env idCarpeta)))
        (if (files.filterMap (fallidoEntry (execAt env idCarpeta))).length > 0
         then some (files.filterMap (fallidoEntry (execAt env idCarpeta)))
         else none)
        ⟨files.length,
         (files.filterMap (exitosoEntry (execAt env idCarpeta))).length,
         (files.filterMap (fallidoEntry (execAt env idCarpeta))).length⟩,
       1 + files.length) := by
  have hlen : ¬ files.length = 0 := by
    simpa [List.length_eq_zero] using hne
  have hfil : files.filter
      (fun f => ! pdfMimeTypes.contains f.mimetype) = [] := by
    rw [List.filter_eq_nil_iff]
    intro f hf
    simp [pdfMimeTypes, hmime f hf]
  have hcl := clasificar_map (fun f => env.execPdf f idCarpeta) files
  simp only [uploadInventarioPDF, hlen, hfil, hpid, hdia, hcl, execAt,
    List.length_nil, gt_iff_lt, Nat.lt_irrefl, if_false, if_true,
    iff_true, eq_self_iff_true, not_false_iff]
  rfl

/-- C1: a batch submitted to the batch PDF endpoint is classified from
the succeeded/failed counts alone — an empty batch is rejected with 400
before any remote use-case invocation (the invocation count is 0); for
an accepted batch, 0 successes with failures yields 500, only successes
yields 201, and a mix yields 207, whatever the proportion and the
failure reasons. -/
theorem uploadIntrastatPDF_classification (env : Env) :
    (∀ marca, uploadIntrastatPDF env [] marca =
      (.errorReply 400 "Falta archivo(s) (form-data \"files\")", 0)) ∧
    (∀ (files : List ReqFile) (m : String) (pid idCarpeta : Nat),
      files ≠ [] → (m = "COMPRA" ∨ m = "VENTA") →
      (∀ f ∈ files, f.mimetype = "application/pdf") →
      (if m = "COMPRA" then env.driveIds.intrastatCompras
       else env.driveIds.intrastatVentas) = some pid →
      env.folderDia pid = .ok idCarpeta →
      ∃ ex fa,
        ex = files.filterMap (exitosoEntry (execAt env idCarpeta)) ∧
        fa = files.filterMap (fallidoEntry (execAt env idCarpeta)) ∧
        (uploadIntrastatPDF env files (some m)).1 =
          .batchReply (batchStatusCode ex fa) ex
            (if fa.length > 0 then some fa else none)
            ⟨files.length, ex.length, fa.length⟩ ∧
        (ex.length = 0 ∧ 0 < fa.length → batchStatusCode ex fa = 500) ∧
        (0 < ex.length ∧ fa.length = 0 → batchStatusCode ex fa = 201) ∧
        (0 < ex.length ∧ 0 < fa.length → batchStatusCode ex fa = 207)) := by
  constructor
  · intro marca; rfl
  · intro files m pid idC hne hm hmime hpid hdia
    refine ⟨_, _, rfl, rfl, ?_, ?_, ?_, ?_⟩
    · rw [uploadIntrastatPDF_run env files m pid idC hne hm hmime hpid hdia]
    · intro ⟨h1, h2⟩
      unfold batchStatusCode
      rw [if_neg (by omega), if_pos h1]
    · intro ⟨h1, h2⟩
      unfold batchStatusCode
      rw [if_pos h2]
    · intro ⟨h1, h2⟩
      unfold batchStatusCode
      rw [if_neg (by omega), if_neg (by omega)]

/-- Witness for C1: a one-item batch where the item succeeds is
classified 201. -/
theorem uploadIntrastatPDF_classification_witness :
    ([(⟨"a.pdf", "application/pdf"⟩ : ReqFile)] ≠ []) ∧
    (uploadIntrastatPDF envW [⟨"a.pdf", "application/pdf"⟩]
      (some "COMPRA")).1 =
      .batchReply 201 [⟨851, "a.pdf", "v", "c", 51, "10-10-2025"⟩]
        none ⟨1, 1, 0⟩ := by
  refine ⟨by decide, ?_⟩
  obtain ⟨ex, fa, rfl, rfl, hreply, _, h201, _⟩ :=
    (uploadIntrastatPDF_classification envW).2
      [⟨"a.pdf", "application/pdf"⟩] "COMPRA" 1 51
      (by decide) (by decide) (by decide) (by decide) (by rfl)
  rw [hreply]
  decide

/-- C2: every accepted batch of N items yields a reply in which the
success and failure lists partition the batch — their lengths add up to
N — and the reported total equals N, for both batch PDF endpoints. -/
theorem uploadBatch_counts (env : Env) :
    (∀ (files : List ReqFile) (m : String) (pid idCarpeta : Nat),
      files ≠ [] → (m = "COMPRA" ∨ m = "VENTA") →
      (∀ f ∈ files, f.mimetype = "application/pdf") →
      (if m = "COMPRA" then env.driveIds.intrastatCompras
       else env.driveIds.intrastatVentas) = some pid →
      env.folderDia pid = .ok idCarpeta →
      ∃ ex fa,
        ex = files.filterMap (exitosoEntry (execAt env idCarpeta)) ∧
        fa = files.filterMap (fallidoEntry (execAt env idCarpeta)) ∧
        (uploadIntrastatPDF env files (some m)).1 =
          .batchReply (batchStatusCode ex fa) ex
            (if fa.length > 0 then some fa else none)
            ⟨files.length, ex.length, fa.length⟩ ∧
        ex.length + fa.length = files.length) ∧
    (∀ (files : List ReqFile) (pid idCarpeta : Nat),
      files ≠ [] →
      (∀ f ∈ files, f.mimetype = "application/pdf") →
      env.driveIds.inventario = some pid →
      env.folderDia pid = .ok idCarpeta →
      ∃ ex fa,
        ex = files.filterMap (exitosoEntry (execAt env idCarpeta)) ∧
        fa = files.filterMap (fallidoEntry (execAt env idCarpeta)) ∧
        (uploadInventarioPDF env files).1 =
          .batchReply (batchStatusCode ex fa) ex
            (if fa.length > 0 then some fa else none)
            ⟨files.length, ex.length, fa.length⟩ ∧
        ex.length + fa.length = files.length) := by
  constructor
  · intro files m pid idC hne hm hmime hpid hdia
    refine ⟨_, _, rfl, rfl, ?_, entries_length (execAt env idC) files⟩
    rw [uploadIntrastatPDF_run env files m pid idC hne hm hmime hpid hdia]
  · intro files pid idC hne hmime hpid hdia
    refine ⟨_, _, rfl, rfl, ?_, entries_length (execAt env idC) files⟩
    rw [uploadInventarioPDF_run env files pid idC hne hmime hpid hdia]

/-- Witness for C2: a two-item batch with one failure on each endpoint
reports total 2, one success, one failure. -/
theorem uploadBatch_counts_witness :
    ([(⟨"a.pdf", "application/pdf"⟩ : ReqFile),
      ⟨"b.pdf", "application/pdf"⟩] ≠ []) ∧
    (uploadIntrastatPDF envW
      [⟨"a.pdf", "application/pdf"⟩, ⟨"b.pdf", "application/pdf"⟩]
      (some "VENTA")).1 =
      .batchReply 207 [⟨852, "a.pdf", "v", "c", 52, "10-10-2025"⟩]
        (some [⟨"b.pdf", "boom"⟩]) ⟨2, 1, 1⟩ ∧
    (uploadInventarioPDF envW
      [⟨"a.pdf", "application/pdf"⟩, ⟨"b.pdf", "application/pdf"⟩]).1 =
      .batchReply 207 [⟨853, "a.pdf", "v", "c", 53, "10-10-2025"⟩]
        (some [⟨"b.pdf", "boom"⟩]) ⟨2, 1, 1⟩ := by
  refine ⟨by decide, ?_, ?_⟩
  · obtain ⟨ex, fa, rfl, rfl, hreply, hlen⟩ :=
      (uploadBatch_counts envW).1
        [⟨"a.pdf", "application/pdf"⟩, ⟨"b.pdf", "application/pdf"⟩]
        "VENTA" 2 52 (by decide) (by decide) (by decide) (by decide)
        (by rfl)
    rw [hreply]
    decide
  · obtain ⟨ex, fa, rfl, rfl, hreply, hlen⟩ :=
      (uploadBatch_counts envW).2
        [⟨"a.pdf", "application/pdf"⟩, ⟨"b.pdf", "application/pdf"⟩]
        3 53 (by decide) (by decide) (by decide) (by rfl)
    rw [hreply]
    decide

/-- C3: in the concurrent batch, every item settles and is recorded —
each item's entry depends only on its own outcome, so no failure blocks
a sibling; the success and failure lists mirror input order (they are
the input list filtered by outcome), and each failed entry carries the
failing item's original name and its error message. -/
theorem uploadIntrastatPDF_per_item_isolation (env : Env)
    (files : List ReqFile) (m : String) (pid idCarpeta : Nat)
    (hne : files ≠ []) (hm : m = "COMPRA" ∨ m = "VENTA")
    (hmime : ∀ f ∈ files, f.mimetype = "application/pdf")
    (hpid : (if m = "COMPRA" then env.driveIds.intrastatCompras
             else env.driveIds.intrastatVentas) = some pid)
    (hdia : env.folderDia pid = .ok idCarpeta) :
    ∃ ex fa,
      ex = files.filterMap (exitosoEntry (execAt env idCarpeta)) ∧
      fa = files.filterMap (fallidoEntry (execAt env idCarpeta)) ∧
      (uploadIntrastatPDF env files (some m)).1 =
        .batchReply (batchStatusCode ex fa) ex
          (if fa.length > 0 then some fa else none)
          ⟨files.length, ex.length, fa.length⟩ ∧
      (∀ f ∈ files, ∀ e, env.execPdf f idCarpeta = .error e →
        Fallido.mk f.originalname (e.message.getD "Error desconocido") ∈ fa) ∧
      (∀ f ∈ files, ∀ p, env.execPdf f idCarpeta = .ok p →
        exitosoOf p ∈ ex) := by
  refine ⟨_, _, rfl, rfl, ?_, ?_, ?_⟩
  · rw [uploadIntrastatPDF_run env files m pid idCarpeta hne hm hmime hpid hdia]
  · intro f hf e he
    exact List.mem_filterMap.mpr ⟨f, hf, by simp [fallidoEntry, execAt, he]⟩
  · intro f hf p hp
    exact List.mem_filterMap.mpr ⟨f, hf, by simp [exitosoEntry, execAt, hp]⟩

/-- Witness for C3: three items where only item 2 fails at the store
layer — 2 successes, 1 failure carrying item 2's original name,
classification 207. -/
theorem uploadIntrastatPDF_per_item_isolation_witness :
    ((⟨"b.pdf", "application/pdf"⟩ : ReqFile) ∈
      ([⟨"a.pdf", "application/pdf"⟩, ⟨"b.pdf", "application/pdf"⟩,
        ⟨"c.pdf", "application/pdf"⟩] : List ReqFile)) ∧
    (uploadIntrastatPDF envW
      [⟨"a.pdf", "application/pdf"⟩, ⟨"b.pdf", "application/pdf"⟩,
       ⟨"c.pdf", "application/pdf"⟩] (some "COMPRA")).1 =
      .batchReply 207
        [⟨851, "a.pdf", "v", "c", 51, "10-10-2025"⟩,
         ⟨851, "c.pdf", "v", "c", 51, "10-10-2025"⟩]
        (some [⟨"b.pdf", "boom"⟩]) ⟨3, 2, 1⟩ := by
  refine ⟨by decide, ?_⟩
  obtain ⟨ex, fa, rfl, rfl, hreply, hfall, hexit⟩ :=
    uploadIntrastatPDF_per_item_isolation envW
      [⟨"a.pdf", "application/pdf"⟩, ⟨"b.pdf", "application/pdf"⟩,
       ⟨"c.pdf", "application/pdf"⟩] "COMPRA" 1 51
      (by decide) (by decide) (by decide) (by decide) (by rfl)
  rw [hreply]
  decide

/-! ## Nóminas endpoint lemmas -/

lemma filterMap_id_map {α β : Type} (f : α → Option β) (l : List α) :
    (l.map f).filterMap id = l.filterMap f := by
  induction l with
  | nil => rfl
  | cons a l ih => cases h : f a <;> simp [h, ih]

lemma filterMap_filter_isSome {α β : Type} (f : α → Option β)
    (l : List α) :
    (l.filter (fun a => (f a).isSome)).filterMap f = l.filterMap f := by
  induction l with
  | nil => rfl
  | cons a l ih =>
    cases h : f a <;> simp [List.filter_cons, h, ih]

lemma uploadNominasExcels_run (env : Env) (resumen : ReqFile)
    (d1 d2 : List ReqFile) (a m : String)
    (pa pn fAM fAMN fR fRes fN : Nat) (excelR : FileMeta)
    (h1 : d1 ≠ []) (h2 : d2 ≠ [])
    (hmime : ∀ f ∈ resumen :: (d1 ++ d2),
      excelMimeTypesNominas.contains (jsToLower f.mimetype) = true)
    (hpa : env.driveIds.nominasAsesorias = some pa)
    (hpn : env.driveIds.nominasNominas = some pn)
    (hf1 : env.getOrCreateMesAnio pa m a = .ok fAM)
    (hf2 : env.getOrCreateMesAnio pn m a = .ok fAMN)
    (hr : env.createFolderIfNotExists "RETENCIONES" fAM = .ok fR)
    (hres : env.createFolderIfNotExists "RESUMEN" fAM = .ok fRes)
    (hn : env.createFolderIfNotExists "NOMINAS" fAMN = .ok fN)
    (hup : env.uploadExcelToFolder resumen fN = .ok excelR) :
    uploadNominasExcels env (some resumen) d1 d2 (some a) (some m) =
      .okReply 200 excelR.id
        (d2.filterMap (nominasDetailTask env fR))
        (d1.filterMap (nominasDetailTask env fRes)) := by
  have hl1 : ¬ d1.length = 0 := by simpa [List.length_eq_zero] using h1
  have hl2 : ¬ d2.length = 0 := by simpa [List.length_eq_zero] using h2
  have hfil : (resumen :: (d1 ++ d2)).filter
      (fun f => ! excelMimeTypesNominas.contains (jsToLower f.mimetype)) =
      [] := by
    rw [List.filter_eq_nil_iff]
    intro f hf
    simpa using hmime f hf
  simp only [uploadNominasExcels, hl1, hl2, hfil, hpa, hpn, hf1, hf2,
    hr, hres, hn, hup, List.length_nil, gt_iff_lt, Nat.lt_irrefl,
    if_false, if_true, iff_true, eq_self_iff_true, not_false_iff,
    filterMap_id_map]

/-- C10: in the payroll multi-file upload, every detail-file failure is
caught inside its own task, mapped to null and filtered out; the reply
is HTTP 200 carrying only the successful file ids (the reply shape has
no failure count and no failure list), and it is literally equal to the
reply of the batch holding only the items that succeed — a batch with
failures is indistinguishable from a fully successful one. -/
theorem uploadNominasExcels_swallows_failures (env : Env)
    (resumen : ReqFile) (d1 d2 : List ReqFile) (a m : String)
    (pa pn fAM fAMN fR fRes fN : Nat) (excelR : FileMeta)
    (h1 : d1 ≠ []) (h2 : d2 ≠ [])
    (hmime : ∀ f ∈ resumen :: (d1 ++ d2),
      excelMimeTypesNominas.contains (jsToLower f.mimetype) = true)
    (hpa : env.driveIds.nominasAsesorias = some pa)
    (hpn : env.driveIds.nominasNominas = some pn)
    (hf1 : env.getOrCreateMesAnio pa m a = .ok fAM)
    (hf2 : env.getOrCreateMesAnio pn m a = .ok fAMN)
    (hr : env.createFolderIfNotExists "RETENCIONES" fAM = .ok fR)
    (hres : env.createFolderIfNotExists "RESUMEN" fAM = .ok fRes)
    (hn : env.createFolderIfNotExists "NOMINAS" fAMN = .ok fN)
    (hup : env.uploadExcelToFolder resumen fN = .ok excelR) :
    uploadNominasExcels env (some resumen) d1 d2 (some a) (some m) =
      .okReply 200 excelR.id
        (d2.filterMap (nominasDetailTask env fR))
        (d1.filterMap (nominasDetailTask env fRes)) ∧
    (d1.filter (fun f => (nominasDetailTask env fRes f).isSome) ≠ [] →
     d2.filter (fun f => (nominasDetailTask env fR f).isSome) ≠ [] →
     uploadNominasExcels env (some resumen)
       (d1.filter (fun f => (nominasDetailTask env fRes f).isSome))
       (d2.filter (fun f => (nominasDetailTask env fR f).isSome))
       (some a) (some m) =
     uploadNominasExcels env (some resumen) d1 d2 (some a) (some m)) := by
  have hrun := uploadNominasExcels_run env resumen d1 d2 a m pa pn fAM
    fAMN fR fRes fN excelR h1 h2 hmime hpa hpn hf1 hf2 hr hres hn hup
  refine ⟨hrun, fun hne1 hne2 => ?_⟩
  have hmime2 : ∀ f ∈ resumen ::
      ((d1.filter (fun f => (nominasDetailTask env fRes f).isSome)) ++
       (d2.filter (fun f => (nominasDetailTask env fR f).isSome))),
      excelMimeTypesNominas.contains (jsToLower f.mimetype) = true := by
    intro f hf
    rcases List.mem_cons.mp hf with h | h
    · exact hmime f (h ▸ List.mem_cons_self _ _)
    · rcases List.mem_append.mp h with h | h
      · exact hmime f (List.mem_cons_of_mem _
          (List.mem_append_left _ (List.mem_of_mem_filter h)))
      · exact hmime f (List.mem_cons_of_mem _
          (List.mem_append_right _ (List.mem_of_mem_filter h)))
  have hrun2 := uploadNominasExcels_run env resumen
    (d1.filter (fun f => (nominasDetailTask env fRes f).isSome))
    (d2.filter (fun f => (nominasDetailTask env fR f).isSome))
    a m pa pn fAM fAMN fR fRes fN excelR hne1 hne2 hmime2 hpa hpn
    hf1 hf2 hr hres hn hup
  rw [hrun, hrun2, filterMap_filter_isSome, filterMap_filter_isSome]

/-- Witness for C10: a payroll batch whose second retention file fails
replies 200 with only the successful ids, equal to the reply of the
batch holding only the successes. -/
theorem uploadNominasExcels_swallows_failures_witness :
    (uploadNominasExcels envW
        (some ⟨"res.xlsx", "application/vnd.ms-excel"⟩)
        [⟨"d1a.xlsx", "application/vnd.ms-excel"⟩]
        [⟨"d2a.xlsx", "application/vnd.ms-excel"⟩,
         ⟨"d2b.xlsx", "application/vnd.ms-excel"⟩]
        (some "2025") (some "ENERO")) =
      .okReply 200 908 [908] [908] ∧
    uploadNominasExcels envW
        (some ⟨"res.xlsx", "application/vnd.ms-excel"⟩)
        (([⟨"d1a.xlsx", "application/vnd.ms-excel"⟩] : List ReqFile).filter
          (fun f => (nominasDetailTask envW 62 f).isSome))
        (([⟨"d2a.xlsx", "application/vnd.ms-excel"⟩,
           ⟨"d2b.xlsx", "application/vnd.ms-excel"⟩] : List ReqFile).filter
          (fun f => (nominasDetailTask envW 61 f).isSome))
        (some "2025") (some "ENERO") =
      uploadNominasExcels envW
        (some ⟨"res.xlsx", "application/vnd.ms-excel"⟩)
        [⟨"d1a.xlsx", "application/vnd.ms-excel"⟩]
        [⟨"d2a.xlsx", "application/vnd.ms-excel"⟩,
         ⟨"d2b.xlsx", "application/vnd.ms-excel"⟩]
        (some "2025") (some "ENERO") := by
  obtain ⟨hmain, hreplay⟩ := uploadNominasExcels_swallows_failures envW
    ⟨"res.xlsx", "application/vnd.ms-excel"⟩
    [⟨"d1a.xlsx", "application/vnd.ms-excel"⟩]
    [⟨"d2a.xlsx", "application/vnd.ms-excel"⟩,
     ⟨"d2b.xlsx", "application/vnd.ms-excel"⟩]
    "2025" "ENERO" 4 5 14 15 61 62 78
    ⟨908, "res.xlsx", "m", "c", "v"⟩
    (by decide) (by decide) (by decide) (by decide) (by decide)
    (by rfl) (by rfl) (by rfl) (by rfl) (by rfl) (by rfl)
  constructor
  · rw [hmain]; decide
  · exact hreplay (by decide) (by decide)

/-- C9 (amended): every file uploaded through `uploadFile` — plain
document uploads to internal folders included — is granted public-read
(anyone-with-link) permission right after creation; extracted images
additionally receive it via `setPublicReadPermissions`. -/
theorem uploadFile_always_public_read (name : String) (parentId : Nat)
    (mimeType : String) (s : DriveState) :
    (uploadFile name parentId mimeType s).1.id ∈
      (uploadFile name parentId mimeType s).2.anyoneReaders := by
  simp [uploadFile]

end Gimar
